import Mathlib

/-!
Verification of the Multi-agent Tourism System (`src/agents.py`) against its
natural-language specification.

Shallow embedding conventions:
* Every outbound HTTP / language-model call is modelled by an oracle value of
  type `Except String α`: `.ok` carries the parsed response body, `.error`
  carries the exception text of a transport/parse failure (the Python code
  wraps each call in `try/except Exception`).
* Python floats (coordinates, temperatures) are modelled as `Int`: none of the
  verified properties depend on fractional arithmetic, only on presence,
  defaulting and rendering of the values.
* Python dicts with a fixed key schema become structures whose optional keys
  are `Option` fields; a dict that is either a payload or an
  `{"error": ..., "details": ...}` marker becomes a two-constructor inductive.
* `process_request` additionally returns a `CallLog` recording which of the
  three downstream services were invoked; the flags are set exactly at the
  points where the Python code performs the corresponding call.
-/

namespace Tourism

/-- Python's `str.lower`-then-compare / `word in text` use ordinary character
lists here.  `charsPref n h` is true iff `n` is a leading segment of `h`. -/
def charsPref : List Char → List Char → Bool
  | [], _ => true
  | _ :: _, [] => false
  | a :: as, b :: bs => a == b && charsPref as bs

/-- `charsSub n h` is true iff `n` occurs contiguously somewhere in `h`;
this is Python's `n in h` substring test. -/
def charsSub (needle : List Char) : List Char → Bool
  | [] => charsPref needle []
  | c :: rest => charsPref needle (c :: rest) || charsSub needle rest

/-- Python `needle in hay` on strings. -/
def strContains (hay needle : String) : Bool :=
  charsSub needle.toList hay.toList

/-- Python `str.title()`: an alphabetic character that follows a
non-alphabetic one (or starts the string) is uppercased, an alphabetic
character following an alphabetic one is lowercased, everything else is kept.
(Python's notion of "cased" coincides with alphabetic on the ASCII tag values
this is applied to.) -/
def pyTitleGo : Bool → List Char → List Char
  | _, [] => []
  | prevAlpha, c :: rest =>
    if c.isAlpha then
      (if prevAlpha then c.toLower else c.toUpper) :: pyTitleGo true rest
    else
      c :: pyTitleGo false rest

/-- Python `s.title()`. -/
def pyTitle (s : String) : String :=
  String.mk (pyTitleGo false s.toList)

/-- Python `s.lower()` (ASCII case mapping, which covers every string the
code compares: the keyword lists and the literal `"unknown"`). -/
def pyLower (s : String) : String :=
  String.mk (s.toList.map Char.toLower)

/-- Python `s.strip()`: whitespace removed from both ends. -/
def pyStrip (s : String) : String :=
  String.mk (((s.toList.dropWhile Char.isWhitespace).reverse.dropWhile Char.isWhitespace).reverse)

/-- Python `s.replace(old, new)` at the one call site of the code, where both
pattern and replacement are single characters, so the replacement is the
character-wise map. -/
def pyReplaceChar (old new : Char) (s : String) : String :=
  String.mk (s.toList.map fun c => if c == old then new else c)

/-- Rendering of an optional numeric JSON value inside a Python f-string:
`None` prints as `"None"`, a number by its decimal notation. -/
def pyShowOptInt : Option Int → String
  | none => "None"
  | some n => toString n

/-! ## GeocodingService (`src/agents.py` lines 5-35) -/

/-- One entry of the Nominatim JSON response list.  `float(...)` conversion of
the `lat`/`lon` strings is modelled by the fields already being numeric; an
entry missing one of the three keys would raise `KeyError` inside the `try`
block and is therefore subsumed by the `.error` case of the oracle. -/
structure GeoEntry where
  lat : Int
  lon : Int
  display_name : String
deriving Repr, DecidableEq

/-- The dict returned by `GeocodingService.get_coordinates` on success. -/
structure GeoCoords where
  lat : Int
  lon : Int
  display_name : String
deriving Repr, DecidableEq

/-- `GeocodingService.get_coordinates`: on a non-empty result list, the first
match's latitude, longitude and display name; on an empty list or a
transport/parse failure, `none`. -/
def get_coordinates (resp : Except String (List GeoEntry)) : Option GeoCoords :=
  match resp with
  | .ok data =>
    match data with
    | [] => none
    | first :: _ => some { lat := first.lat, lon := first.lon, display_name := first.display_name }
  | .error _ => none

/-! ## WeatherAgent (`src/agents.py` lines 38-99) -/

/-- The `"current"` block of the Open-Meteo response; every key is optional
(`dict.get` is used for each). -/
structure CurrentBlock where
  temperature_2m : Option Int := none
  precipitation_probability : Option Int := none
  weather_code : Option Int := none
deriving Repr, DecidableEq

/-- The Open-Meteo response body: `data.get("current", {})` and
`data.get("timezone", "UTC")`. -/
structure WeatherAPIResponse where
  current : Option CurrentBlock := none
  timezone : Option String := none
deriving Repr, DecidableEq

/-- The WMO code table of `WeatherAgent._interpret_weather_code`, as an
association list mirroring the Python dict (keys are distinct). -/
def weather_codes : List (Int × String) :=
  [(0, "Clear sky"),
   (1, "Mainly clear"),
   (2, "Partly cloudy"),
   (3, "Overcast"),
   (45, "Foggy"),
   (48, "Depositing rime fog"),
   (51, "Light drizzle"),
   (53, "Moderate drizzle"),
   (55, "Dense drizzle"),
   (61, "Slight rain"),
   (63, "Moderate rain"),
   (65, "Heavy rain"),
   (71, "Slight snow"),
   (73, "Moderate snow"),
   (75, "Heavy snow"),
   (95, "Thunderstorm")]

/-- `WeatherAgent._interpret_weather_code`: `weather_codes.get(code, "Unknown")`. -/
def interpret_weather_code (code : Int) : String :=
  match weather_codes.lookup code with
  | some desc => desc
  | none => "Unknown"

/-- The success payload of `WeatherAgent.get_weather`. -/
structure WeatherSummary where
  temperature : Option Int
  temperature_unit : String
  precipitation_probability : Int
  weather_description : String
  timezone : String
deriving Repr, DecidableEq

/-- `WeatherAgent.get_weather` returns either the summary dict or the
`{"error": ..., "details": ...}` marker dict. -/
inductive WeatherResult where
  | ok (summary : WeatherSummary)
  | err (error details : String)
deriving Repr, DecidableEq

/-- `WeatherAgent.get_weather` as a function of the HTTP oracle. -/
def get_weather (resp : Except String WeatherAPIResponse) : WeatherResult :=
  match resp with
  | .ok data =>
    let current := data.current.getD {}
    let weather_code := current.weather_code.getD 0
    .ok { temperature := current.temperature_2m,
          temperature_unit := "°C",
          precipitation_probability := current.precipitation_probability.getD 0,
          weather_description := interpret_weather_code weather_code,
          timezone := data.timezone.getD "UTC" }
  | .error e => .err "Unable to fetch weather data" e

/-! ## PlacesAgent (`src/agents.py` lines 102-155) -/

/-- The subset of Overpass element tags the code reads (`dict.get` /
membership tests on the `tags` dict). -/
structure Tags where
  name : Option String := none
  tourism : Option String := none
  website : Option String := none
  description : Option String := none
deriving Repr, DecidableEq

/-- One element of the Overpass `"elements"` list; `element.get("tags", {})`
makes a missing tags dict the all-absent one. -/
structure OverpassElement where
  tags : Tags := {}
  lat : Option Int := none
  lon : Option Int := none
deriving Repr, DecidableEq

/-- The Overpass response body (`data.get("elements", [])`). -/
structure OverpassResponse where
  elements : List OverpassElement := []
deriving Repr, DecidableEq

/-- The `place_info` dict built for one retained element. -/
structure PlaceInfo where
  name : String
  type : String
  lat : Option Int
  lon : Option Int
  website : Option String
  description : Option String
deriving Repr, DecidableEq

/-- An element of the list returned by `PlacesAgent.get_tourist_places`:
either a place dict or the `{"error": ..., "details": ...}` marker dict. -/
inductive PlaceEntry where
  | place (info : PlaceInfo)
  | err (error details : String)
deriving Repr, DecidableEq

/-- Whether an entry is the failure marker (the Python `"error" in place`
test). -/
def PlaceEntry.isErr : PlaceEntry → Bool
  | .place _ => false
  | .err _ _ => true

/-- The per-element body of the loop in `PlacesAgent.get_tourist_places`. -/
def mkPlaceInfo (element : OverpassElement) : PlaceEntry :=
  let tags := element.tags
  let name := tags.name.getD "Unnamed attraction"
  let tourism_type := tags.tourism.getD "attraction"
  .place { name := name,
           type := pyTitle (pyReplaceChar '_' ' ' tourism_type),
           lat := element.lat,
           lon := element.lon,
           website := tags.website,
           description := tags.description }

/-- `PlacesAgent.get_tourist_places` as a function of the HTTP oracle:
`for element in elements[:5]` over the response, or the single-element
failure-marker list on a caught exception. -/
def get_tourist_places (resp : Except String OverpassResponse) : List PlaceEntry :=
  match resp with
  | .ok data => (data.elements.take 5).map mkPlaceInfo
  | .error e => [.err "Unable to fetch tourist places" e]

/-! ## TourismOrchestrator (`src/agents.py` lines 158-281) -/

/-- The dict returned by `TourismOrchestrator.analyze_query`. -/
structure Analysis where
  needs_weather : Bool
  needs_places : Bool
  place_name : String
deriving Repr, DecidableEq

/-- The weather-intent keyword list of `analyze_query`. -/
def weatherWords : List String :=
  ["weather", "temperature", "rain", "forecast", "climate", "hot", "cold"]

/-- The places-intent keyword list of `analyze_query`. -/
def placesWords : List String :=
  ["visit", "places", "attractions", "see", "do", "trip", "tourism", "sightseeing"]

/-- `TourismOrchestrator._extract_place_name`: the completion call is an
oracle; on success the message content is returned `.strip()`-ped, on a
caught exception the literal `"unknown"` is returned. -/
def extract_place_name (llmResp : Except String String) : String :=
  match llmResp with
  | .ok content => pyStrip content
  | .error _ => "unknown"

/-- `TourismOrchestrator.analyze_query`. -/
def analyze_query (user_query : String) (llmResp : Except String String) : Analysis :=
  let query_lower := pyLower user_query
  { needs_weather := weatherWords.any (fun word => strContains query_lower word),
    needs_places := placesWords.any (fun word => strContains query_lower word),
    place_name := extract_place_name llmResp }

/-- The `result["place"]` block built by `process_request`. -/
structure PlaceBlock where
  name : String
  full_name : String
  lat : Int
  lon : Int
deriving Repr, DecidableEq

/-- The successful top-level result dict: `weather` is present iff
`needs_weather`, `places` iff `needs_places`. -/
structure SuccessResult where
  place : PlaceBlock
  weather : Option WeatherResult
  places : Option (List PlaceEntry)
  response : String
deriving Repr, DecidableEq

/-- The value returned by `process_request`. -/
inductive QueryResult where
  | failure (message : String)
  | success (r : SuccessResult)
deriving Repr, DecidableEq

/-- Instrumentation: which downstream services `process_request` invoked. -/
structure CallLog where
  geocodingCalled : Bool
  weatherCalled : Bool
  placesCalled : Bool
deriving Repr, DecidableEq

/-- The outcomes of the five external calls a request can make, supplied as
oracles. -/
structure Env where
  extractResp : Except String String
  geoResp : Except String (List GeoEntry)
  weatherResp : Except String WeatherAPIResponse
  placesResp : Except String OverpassResponse
  composeResp : Except String String
deriving Repr

/-- The weather line of the context: the f-string
`f"Weather: {temperature}{unit}, {description}, {probability}% chance of rain"`. -/
def weatherLine (weather : WeatherSummary) : String :=
  "Weather: " ++ pyShowOptInt weather.temperature ++ weather.temperature_unit ++ ", " ++
    weather.weather_description ++ ", " ++
    toString weather.precipitation_probability ++ "% chance of rain"

/-- The body of the `places_list` loop in `_generate_response`: a non-marker
entry contributes `f"{name} ({type})"`, a failure marker contributes
nothing. -/
def poiLine : PlaceEntry → Option String
  | .place info => some (info.name ++ " (" ++ info.type ++ ")")
  | .err _ _ => none

/-- The `context` string built by `TourismOrchestrator._generate_response`
from the not-yet-complete result dict (`"response"` not yet set):
a `Location:` line (the `full_name` key is always present at the call site,
so `place_info.get('full_name', place_info.get('name'))` is `full_name`),
then a `Weather:` line iff a weather dict without `"error"` key is present,
then a `Tourist attractions:` line iff the places list is present, non-empty
and has at least one non-marker entry. -/
def build_context (result : SuccessResult) : String :=
  let context_parts : List String := ["Location: " ++ result.place.full_name]
  let context_parts :=
    match result.weather with
    | some (.ok weather) => context_parts ++ [weatherLine weather]
    | _ => context_parts
  let context_parts :=
    match result.places with
    | some places =>
      if places.isEmpty then context_parts
      else
        let places_list := places.filterMap poiLine
        if places_list.isEmpty then context_parts
        else context_parts ++ ["Tourist attractions: " ++ String.intercalate ", " places_list]
    | none => context_parts
  String.intercalate "\n" context_parts

/-- `TourismOrchestrator._generate_response`: the completion call is an
oracle; on a caught exception the deterministic fallback
`"Here's what I found: " + context` is returned.  (The `analysis` dict only
feeds the prompt, which the oracle absorbs.) -/
def generate_response (result : SuccessResult) (composeResp : Except String String) : String :=
  match composeResp with
  | .ok content => content
  | .error _ => "Here's what I found: " ++ build_context result

/-- `TourismOrchestrator.process_request`, paired with the call log. -/
def process_request (user_query : String) (env : Env) : QueryResult × CallLog :=
  let analysis := analyze_query user_query env.extractResp
  let place_name := analysis.place_name
  if pyLower place_name == "unknown" || place_name == "" then
    (.failure "I couldn't identify a place name in your query. Please specify which location you'd like information about.",
     { geocodingCalled := false, weatherCalled := false, placesCalled := false })
  else
    match get_coordinates env.geoResp with
    | none =>
      (.failure ("I don't know if the place '" ++ place_name ++ "' exists, or I couldn't find its location. Please check the spelling and try again."),
       { geocodingCalled := true, weatherCalled := false, placesCalled := false })
    | some coords =>
      let weather : Option WeatherResult :=
        if analysis.needs_weather then some (get_weather env.weatherResp) else none
      let places : Option (List PlaceEntry) :=
        if analysis.needs_places then some (get_tourist_places env.placesResp) else none
      let pre_result : SuccessResult :=
        { place := { name := place_name, full_name := coords.display_name,
                     lat := coords.lat, lon := coords.lon },
          weather := weather, places := places, response := "" }
      let response := generate_response pre_result env.composeResp
      (.success { pre_result with response := response },
       { geocodingCalled := true, weatherCalled := analysis.needs_weather,
         placesCalled := analysis.needs_places })

/-! ## Helper lemmas -/

/-- `charsPref` decides the prefix relation. -/
theorem charsPref_iff (n : List Char) : ∀ h : List Char,
    charsPref n h = true ↔ ∃ r, h = n ++ r := by
  induction n with
  | nil => intro h; simp [charsPref]
  | cons a as ih =>
    intro h
    cases h with
    | nil => simp [charsPref]
    | cons b bs =>
      constructor
      · intro hp
        rw [charsPref, Bool.and_eq_true, beq_iff_eq] at hp
        obtain ⟨hab, hpref⟩ := hp
        obtain ⟨r, hr⟩ := (ih bs).mp hpref
        subst hab
        exact ⟨r, by rw [hr]; rfl⟩
      · rintro ⟨r, hr⟩
        injection hr with h1 h2
        rw [charsPref, Bool.and_eq_true, beq_iff_eq]
        exact ⟨h1.symm, (ih bs).mpr ⟨r, h2⟩⟩

/-- `charsSub` decides contiguous-substring occurrence. -/
theorem charsSub_iff (n : List Char) : ∀ h : List Char,
    charsSub n h = true ↔ ∃ l r, h = l ++ n ++ r := by
  intro h
  induction h with
  | nil =>
    rw [charsSub, charsPref_iff]
    constructor
    · rintro ⟨r, hr⟩; exact ⟨[], r, hr⟩
    · rintro ⟨l, r, hr⟩
      have h1 := List.append_eq_nil.mp hr.symm
      have h2 := List.append_eq_nil.mp h1.1
      exact ⟨r, by rw [← h2.2]; exact h1.2.symm ▸ (by simp [h2.2, h1.2])⟩
  | cons c rest ih =>
    rw [charsSub, Bool.or_eq_true, charsPref_iff, ih]
    constructor
    · rintro (⟨r, hr⟩ | ⟨l, r, hr⟩)
      · exact ⟨[], r, by simpa using hr⟩
      · exact ⟨c :: l, r, by simp [hr]⟩
    · rintro ⟨l, r, hr⟩
      cases l with
      | nil => exact Or.inl ⟨r, by simpa using hr⟩
      | cons x xs =>
        injection hr with h1 h2
        exact Or.inr ⟨xs, r, h2⟩

/-- `strContains hay needle` is Python's substring test, characterized by a
decomposition of the character list. -/
theorem strContains_iff (hay needle : String) :
    strContains hay needle = true ↔
      ∃ l r, hay.toList = l ++ needle.toList ++ r := by
  rw [strContains, charsSub_iff]

theorem intercalate_one (s a : String) : String.intercalate s [a] = a := rfl

theorem intercalate_two (s a b : String) : String.intercalate s [a, b] = a ++ s ++ b := rfl

theorem intercalate_three (s a b c : String) :
    String.intercalate s [a, b, c] = a ++ s ++ b ++ s ++ c := rfl

/-! ## Claim theorems -/

/-- C3: `analyze_query` sets `needs_weather` to true iff the lowercased query
contains (as a contiguous substring) at least one weather term, and
`needs_places` to true iff it contains at least one places term; each flag is
determined solely by its own term set (the delegated place extraction plays
no role in either flag). -/
theorem analyze_query_keyword_iff (q : String) (llmResp : Except String String) :
    ((analyze_query q llmResp).needs_weather = true ↔
      ∃ w ∈ weatherWords, ∃ l r, (pyLower q).toList = l ++ w.toList ++ r) ∧
    ((analyze_query q llmResp).needs_places = true ↔
      ∃ w ∈ placesWords, ∃ l r, (pyLower q).toList = l ++ w.toList ++ r) := by
  constructor
  · rw [show (analyze_query q llmResp).needs_weather
        = weatherWords.any (fun word => strContains (pyLower q) word) from rfl]
    rw [List.any_eq_true]
    exact ⟨fun ⟨w, hw, hc⟩ => ⟨w, hw, (strContains_iff _ _).mp hc⟩,
           fun ⟨w, hw, hc⟩ => ⟨w, hw, (strContains_iff _ _).mpr hc⟩⟩
  · rw [show (analyze_query q llmResp).needs_places
        = placesWords.any (fun word => strContains (pyLower q) word) from rfl]
    rw [List.any_eq_true]
    exact ⟨fun ⟨w, hw, hc⟩ => ⟨w, hw, (strContains_iff _ _).mp hc⟩,
           fun ⟨w, hw, hc⟩ => ⟨w, hw, (strContains_iff _ _).mpr hc⟩⟩

/-- C3 witness: on the concrete query "rain see" both flags are true, via the
characterization applied at explicit decompositions. -/
theorem analyze_query_keyword_iff_witness :
    (analyze_query "rain see" (Except.ok "Kyoto")).needs_weather = true ∧
    (analyze_query "rain see" (Except.ok "Kyoto")).needs_places = true :=
  ⟨(analyze_query_keyword_iff "rain see" (Except.ok "Kyoto")).1.mpr
      ⟨"rain", by decide, [], " see".toList, by decide⟩,
   (analyze_query_keyword_iff "rain see" (Except.ok "Kyoto")).2.mpr
      ⟨"see", by decide, "rain ".toList, [], by decide⟩⟩

/-- C4: `_interpret_weather_code` maps each of the 16 table codes to its exact
phrase and every other integer to `"Unknown"`; being a total Lean function it
never errors. -/
theorem interpret_weather_code_spec :
    (∀ c : Int, c ∉ ([0, 1, 2, 3, 45, 48, 51, 53, 55, 61, 63, 65, 71, 73, 75, 95] : List Int) →
      interpret_weather_code c = "Unknown") ∧
    interpret_weather_code 0 = "Clear sky" ∧
    interpret_weather_code 1 = "Mainly clear" ∧
    interpret_weather_code 2 = "Partly cloudy" ∧
    interpret_weather_code 3 = "Overcast" ∧
    interpret_weather_code 45 = "Foggy" ∧
    interpret_weather_code 48 = "Depositing rime fog" ∧
    interpret_weather_code 51 = "Light drizzle" ∧
    interpret_weather_code 53 = "Moderate drizzle" ∧
    interpret_weather_code 55 = "Dense drizzle" ∧
    interpret_weather_code 61 = "Slight rain" ∧
    interpret_weather_code 63 = "Moderate rain" ∧
    interpret_weather_code 65 = "Heavy rain" ∧
    interpret_weather_code 71 = "Slight snow" ∧
    interpret_weather_code 73 = "Moderate snow" ∧
    interpret_weather_code 75 = "Heavy snow" ∧
    interpret_weather_code 95 = "Thunderstorm" := by
  refine ⟨?_, rfl, rfl, rfl, rfl, rfl, rfl, rfl, rfl, rfl, rfl, rfl, rfl, rfl, rfl, rfl, rfl⟩
  intro c h
  simp only [List.mem_cons, List.not_mem_nil, or_false, not_or] at h
  obtain ⟨h0, h1, h2, h3, h4, h5, h6, h7, h8, h9, h10, h11, h12, h13, h14, h15⟩ := h
  simp [interpret_weather_code, weather_codes, List.lookup, beq_false_of_ne h0,
    beq_false_of_ne h1, beq_false_of_ne h2, beq_false_of_ne h3, beq_false_of_ne h4,
    beq_false_of_ne h5, beq_false_of_ne h6, beq_false_of_ne h7, beq_false_of_ne h8,
    beq_false_of_ne h9, beq_false_of_ne h10, beq_false_of_ne h11, beq_false_of_ne h12,
    beq_false_of_ne h13, beq_false_of_ne h14, beq_false_of_ne h15]

/-- C4 witness: the quantified part at the concrete off-table code 42. -/
theorem interpret_weather_code_spec_witness :
    interpret_weather_code 42 = "Unknown" :=
  interpret_weather_code_spec.1 42 (by decide)

/-- C5: `get_tourist_places` returns at most 5 entries for every upstream
response. -/
theorem get_tourist_places_length_le_five (resp : Except String OverpassResponse) :
    (get_tourist_places resp).length ≤ 5 := by
  cases resp with
  | ok data =>
    simp only [get_tourist_places, List.length_map, List.length_take]
    omega
  | error e => simp [get_tourist_places]

/-- C6: on a transport/parse failure `get_tourist_places` returns exactly the
one-element failure-marker list (never empty, never an exception), while an
empty successful upstream response yields the empty list — so the two cases
stay distinguishable. -/
theorem get_tourist_places_error_marker (e : String) :
    get_tourist_places (Except.error e) = [PlaceEntry.err "Unable to fetch tourist places" e] ∧
    (get_tourist_places (Except.error e)).length = 1 ∧
    (PlaceEntry.err "Unable to fetch tourist places" e).isErr = true ∧
    get_tourist_places (Except.ok {}) = [] :=
  ⟨rfl, rfl, rfl, rfl⟩

/-- C1: when the extracted place name is `"unknown"` (case-insensitively) or
empty, `process_request` fails with the exact fixed message and performs no
geocoding, weather, or places call. -/
theorem process_request_unknown_place (q : String) (env : Env)
    (h : pyLower (extract_place_name env.extractResp) = "unknown" ∨
         extract_place_name env.extractResp = "") :
    process_request q env =
      (QueryResult.failure "I couldn't identify a place name in your query. Please specify which location you'd like information about.",
       { geocodingCalled := false, weatherCalled := false, placesCalled := false }) := by
  have hc : (pyLower (extract_place_name env.extractResp) == "unknown" ||
      (extract_place_name env.extractResp == "")) = true := by
    rcases h with h | h <;> simp [h]
  simp [process_request, analyze_query, hc]

/-- An environment in which the extraction call returns `" Unknown "` and
every other service is down. -/
def envUnknown : Env :=
  { extractResp := Except.ok " Unknown ",
    geoResp := Except.error "down",
    weatherResp := Except.error "down",
    placesResp := Except.error "down",
    composeResp := Except.error "down" }

/-- C1 witness: the whitespace-padded, mixed-case extraction `" Unknown "`
triggers the fixed failure with no downstream call. -/
theorem process_request_unknown_place_witness :
    process_request "what is the weather" envUnknown =
      (QueryResult.failure "I couldn't identify a place name in your query. Please specify which location you'd like information about.",
       { geocodingCalled := false, weatherCalled := false, placesCalled := false }) :=
  process_request_unknown_place "what is the weather" envUnknown (Or.inl (by decide))

/-- C2: with a valid extracted place name, when geocoding yields no match
`process_request` fails with the message interpolating the queried place name
(in particular the message contains that name) and performs no weather or
places call. -/
theorem process_request_geocode_absent (q : String) (env : Env)
    (h1 : pyLower (extract_place_name env.extractResp) ≠ "unknown")
    (h2 : extract_place_name env.extractResp ≠ "")
    (h3 : get_coordinates env.geoResp = none) :
    process_request q env =
      (QueryResult.failure ("I don't know if the place '" ++ extract_place_name env.extractResp ++ "' exists, or I couldn't find its location. Please check the spelling and try again."),
       { geocodingCalled := true, weatherCalled := false, placesCalled := false }) ∧
    ∃ pre post : String,
      "I don't know if the place '" ++ extract_place_name env.extractResp ++ "' exists, or I couldn't find its location. Please check the spelling and try again." =
        pre ++ extract_place_name env.extractResp ++ post := by
  refine ⟨?_, "I don't know if the place '", "' exists, or I couldn't find its location. Please check the spelling and try again.", rfl⟩
  have hc : (pyLower (extract_place_name env.extractResp) == "unknown" ||
      (extract_place_name env.extractResp == "")) = false := by
    simp [h1, h2]
  simp [process_request, analyze_query, hc, h3]

/-- An environment in which extraction returns `"Atlantis"` and geocoding
returns an empty match list. -/
def envNoMatch : Env :=
  { extractResp := Except.ok "Atlantis",
    geoResp := Except.ok [],
    weatherResp := Except.error "down",
    placesResp := Except.error "down",
    composeResp := Except.error "down" }

/-- C2 witness: the unmatched place `"Atlantis"` produces the interpolated
failure message and no weather/places call. -/
theorem process_request_geocode_absent_witness :
    process_request "tell me about Atlantis" envNoMatch =
      (QueryResult.failure "I don't know if the place 'Atlantis' exists, or I couldn't find its location. Please check the spelling and try again.",
       { geocodingCalled := true, weatherCalled := false, placesCalled := false }) := by
  have h := process_request_geocode_absent "tell me about Atlantis" envNoMatch
    (by decide) (by decide) rfl
  exact h.1

/-- C9 counterexample: `get_coordinates` forwards the upstream display name
verbatim, so an upstream match whose display name is the empty string yields
a successful resolution with an empty canonical name. -/
theorem get_coordinates_nonempty_name_cex :
    ¬ (∀ (resp : Except String (List GeoEntry)) (r : GeoCoords),
        get_coordinates resp = some r → r.display_name ≠ "") := by
  intro h
  exact h (Except.ok [{ lat := 0, lon := 0, display_name := "" }])
    { lat := 0, lon := 0, display_name := "" } rfl rfl

/-- C9 (amended): on success the canonical display name is exactly the first
upstream match's display name; it is non-empty whenever that upstream value
is non-empty. -/
theorem get_coordinates_name_from_upstream (resp : Except String (List GeoEntry))
    (r : GeoCoords) (h : get_coordinates resp = some r) :
    ∃ first rest, resp = Except.ok (first :: rest) ∧
      r.display_name = first.display_name ∧
      (first.display_name ≠ "" → r.display_name ≠ "") := by
  cases resp with
  | error e => simp [get_coordinates] at h
  | ok data =>
    cases data with
    | nil => simp [get_coordinates] at h
    | cons first rest =>
      simp only [get_coordinates, Option.some.injEq] at h
      refine ⟨first, rest, rfl, ?_, ?_⟩
      · rw [← h]
      · intro hne
        rw [← h]
        exact hne

/-- C9 witness: a concrete successful resolution whose upstream display name
is `"Paris, France"`. -/
theorem get_coordinates_name_from_upstream_witness :
    ∃ first rest,
      (Except.ok [({ lat := 2, lon := 48, display_name := "Paris, France" } : GeoEntry)] :
          Except String (List GeoEntry)) = Except.ok (first :: rest) ∧
      ({ lat := 2, lon := 48, display_name := "Paris, France" } : GeoCoords).display_name =
        first.display_name ∧
      (first.display_name ≠ "" →
        ({ lat := 2, lon := 48, display_name := "Paris, France" } : GeoCoords).display_name ≠ "") :=
  get_coordinates_name_from_upstream
    (Except.ok [{ lat := 2, lon := 48, display_name := "Paris, France" }])
    { lat := 2, lon := 48, display_name := "Paris, France" } rfl

/-- C10: a successful weather response with missing fields is reported as a
non-failure summary with defaults: absent `weather_code` reads as code 0
(`"Clear sky"`), absent `precipitation_probability` as 0, absent
`temperature_2m` as an absent temperature, absent `timezone` as `"UTC"`. -/
theorem get_weather_defaults (r : WeatherAPIResponse) :
    ∃ s : WeatherSummary, get_weather (Except.ok r) = WeatherResult.ok s ∧
      s.temperature = (r.current.getD {}).temperature_2m ∧
      ((r.current.getD {}).weather_code = none → s.weather_description = "Clear sky") ∧
      ((r.current.getD {}).precipitation_probability = none → s.precipitation_probability = 0) ∧
      (r.timezone = none → s.timezone = "UTC") := by
  refine ⟨_, rfl, rfl, ?_, ?_, ?_⟩ <;> intro h <;>
    simp [h, interpret_weather_code, weather_codes]

/-- C10 witness: the entirely empty successful response is reported as clear
weather with all defaults. -/
theorem get_weather_defaults_witness :
    ∃ s : WeatherSummary, get_weather (Except.ok {}) = WeatherResult.ok s ∧
      s.temperature = none ∧ s.weather_description = "Clear sky" ∧
      s.precipitation_probability = 0 ∧ s.timezone = "UTC" := by
  obtain ⟨s, h1, h2, h3, h4, h5⟩ := get_weather_defaults {}
  exact ⟨s, h1, h2, h3 rfl, h4 rfl, h5 rfl⟩

/-- C7: when the completion call fails, `_generate_response` returns exactly
`"Here's what I found: "` followed by the structured context: the location
line, then a weather line iff a non-failed weather summary is present, then a
comma-joined attractions line iff at least one non-marker point of interest
is present, the lines separated by `"\n"`. -/
theorem generate_response_fallback (result : SuccessResult) (e : String) :
    generate_response result (Except.error e) =
      "Here's what I found: " ++
        ("Location: " ++ result.place.full_name ++
          (match result.weather with
           | some (WeatherResult.ok w) => "\n" ++ weatherLine w
           | _ => "") ++
          (match result.places with
           | some places =>
             if (places.filterMap poiLine).isEmpty then ""
             else "\n" ++ ("Tourist attractions: " ++
               String.intercalate ", " (places.filterMap poiLine))
           | none => "")) := by
  show "Here's what I found: " ++ build_context result = _
  congr 1
  rcases hw : result.weather with _ | w
  · rcases hp : result.places with _ | places
    · simp [build_context, hw, hp, intercalate_one]
    · by_cases hie : places.isEmpty
      · have hnil : places = [] := List.isEmpty_iff.mp hie
        subst hnil
        simp [build_context, hw, hp, intercalate_one]
      · by_cases hpl : (places.filterMap poiLine).isEmpty
        · simp only [build_context, hw, hp, if_neg hie]
          rw [if_pos hpl, if_pos hpl]
          simp [intercalate_one]
        · simp only [build_context, hw, hp, if_neg hie]
          rw [if_neg hpl, if_neg hpl]
          simp [intercalate_two, String.append_assoc]
  · cases w with
    | ok s =>
      rcases hp : result.places with _ | places
      · simp [build_context, hw, hp, intercalate_two, String.append_assoc]
      · by_cases hie : places.isEmpty
        · have hnil : places = [] := List.isEmpty_iff.mp hie
          subst hnil
          simp [build_context, hw, hp, intercalate_two, String.append_assoc]
        · by_cases hpl : (places.filterMap poiLine).isEmpty
          · simp only [build_context, hw, hp, if_neg hie]
            rw [if_pos hpl, if_pos hpl]
            simp [intercalate_two, String.append_assoc]
          · simp only [build_context, hw, hp, if_neg hie]
            rw [if_neg hpl, if_neg hpl]
            simp [intercalate_three, String.append_assoc]
    | err a b =>
      rcases hp : result.places with _ | places
      · simp [build_context, hw, hp, intercalate_one]
      · by_cases hie : places.isEmpty
        · have hnil : places = [] := List.isEmpty_iff.mp hie
          subst hnil
          simp [build_context, hw, hp, intercalate_one]
        · by_cases hpl : (places.filterMap poiLine).isEmpty
          · simp only [build_context, hw, hp, if_neg hie]
            rw [if_pos hpl, if_pos hpl]
            simp [intercalate_one]
          · simp only [build_context, hw, hp, if_neg hie]
            rw [if_neg hpl, if_neg hpl]
            simp [intercalate_two, String.append_assoc]

/-- A concrete not-yet-complete result with weather and one plain plus one
marker attraction entry. -/
def sampleResult : SuccessResult :=
  { place := { name := "Paris", full_name := "Paris, France", lat := 48, lon := 2 },
    weather := some (WeatherResult.ok
      { temperature := some 21, temperature_unit := "°C", precipitation_probability := 10,
        weather_description := "Clear sky", timezone := "Europe/Paris" }),
    places := some
      [PlaceEntry.place
        { name := "Louvre", type := "Museum", lat := some 48, lon := some 2,
          website := none, description := none },
       PlaceEntry.err "Unable to fetch tourist places" "late failure"],
    response := "" }

/-- C7 witness: the fallback on a concrete result renders location, weather
and attractions lines joined by line breaks, skipping the marker entry. -/
theorem generate_response_fallback_witness :
    generate_response sampleResult (Except.error "llm down") =
      "Here's what I found: Location: Paris, France\nWeather: 21°C, Clear sky, 10% chance of rain\nTourist attractions: Louvre (Museum)" := by
  rw [generate_response_fallback]
  decide

/-- The success path of `process_request` in one equation: with a valid place
name and resolved coordinates, the result carries the place block, the
conditional weather and places results, the composed response, and the log
records a geocoding call plus the two conditional calls. -/
theorem process_request_success_eq (q : String) (env : Env)
    (hc : (pyLower (extract_place_name env.extractResp) == "unknown" ||
      (extract_place_name env.extractResp == "")) = false)
    (coords : GeoCoords) (h3 : get_coordinates env.geoResp = some coords) :
    process_request q env =
      (QueryResult.success
        { place := { name := extract_place_name env.extractResp,
                     full_name := coords.display_name, lat := coords.lat, lon := coords.lon },
          weather := if (analyze_query q env.extractResp).needs_weather
                     then some (get_weather env.weatherResp) else none,
          places := if (analyze_query q env.extractResp).needs_places
                    then some (get_tourist_places env.placesResp) else none,
          response := generate_response
            { place := { name := extract_place_name env.extractResp,
                         full_name := coords.display_name, lat := coords.lat, lon := coords.lon },
              weather := if (analyze_query q env.extractResp).needs_weather
                         then some (get_weather env.weatherResp) else none,
              places := if (analyze_query q env.extractResp).needs_places
                        then some (get_tourist_places env.placesResp) else none,
              response := "" }
            env.composeResp },
       { geocodingCalled := true,
         weatherCalled := (analyze_query q env.extractResp).needs_weather,
         placesCalled := (analyze_query q env.extractResp).needs_places }) := by
  have hpn : (analyze_query q env.extractResp).place_name = extract_place_name env.extractResp :=
    rfl
  simp only [process_request, hpn, hc, Bool.false_eq_true, if_false, h3]

/-- C8: when weather is requested and the weather lookup fails,
`process_request` still succeeds, the weather field carries the failure
marker, the places field (if requested) is exactly the places lookup result,
and the composed fallback text has no weather line. -/
theorem process_request_weather_fail_independent (q : String) (env : Env)
    (h1 : pyLower (extract_place_name env.extractResp) ≠ "unknown")
    (h2 : extract_place_name env.extractResp ≠ "")
    (coords : GeoCoords) (h3 : get_coordinates env.geoResp = some coords)
    (h4 : (analyze_query q env.extractResp).needs_weather = true)
    (e : String) (h5 : env.weatherResp = Except.error e) :
    ∃ r : SuccessResult,
      process_request q env =
        (QueryResult.success r,
         { geocodingCalled := true, weatherCalled := true,
           placesCalled := (analyze_query q env.extractResp).needs_places }) ∧
      r.weather = some (WeatherResult.err "Unable to fetch weather data" e) ∧
      r.places = (if (analyze_query q env.extractResp).needs_places
                  then some (get_tourist_places env.placesResp) else none) ∧
      (∀ ce, env.composeResp = Except.error ce →
        r.response = "Here's what I found: " ++
          ("Location: " ++ coords.display_name ++
            (match (if (analyze_query q env.extractResp).needs_places
                    then some (get_tourist_places env.placesResp) else none) with
             | some places =>
               if (places.filterMap poiLine).isEmpty then ""
               else "\n" ++ ("Tourist attractions: " ++
                 String.intercalate ", " (places.filterMap poiLine))
             | none => ""))) := by
  have hc : (pyLower (extract_place_name env.extractResp) == "unknown" ||
      (extract_place_name env.extractResp == "")) = false := by
    simp [h1, h2]
  rw [process_request_success_eq q env hc coords h3]
  rw [h4, h5]
  refine ⟨_, rfl, rfl, rfl, ?_⟩
  intro ce hce
  show generate_response _ env.composeResp = _
  rw [hce]
  show "Here's what I found: " ++ build_context _ = _
  congr 1
  by_cases hnp : (analyze_query q env.extractResp).needs_places
  · rw [if_pos hnp]
    rcases hplaces : get_tourist_places env.placesResp with _ | ⟨p0, prest⟩
    · simp [build_context, get_weather, intercalate_one]
    · by_cases hpl : (((p0 :: prest) : List PlaceEntry).filterMap poiLine).isEmpty
      · simp only [build_context, get_weather]
        rw [if_neg (by simp : ¬((p0 :: prest) : List PlaceEntry).isEmpty = true)]
        rw [if_pos hpl, if_pos hpl]
        simp [intercalate_one]
      · simp only [build_context, get_weather]
        rw [if_neg (by simp : ¬((p0 :: prest) : List PlaceEntry).isEmpty = true)]
        rw [if_neg hpl, if_neg hpl]
        simp [intercalate_two, String.append_assoc]
  · rw [if_neg hnp]
    simp [build_context, get_weather, intercalate_one]

/-- A sample Overpass element tagged as a museum named Louvre. -/
def louvreElement : OverpassElement :=
  { tags := { name := some "Louvre", tourism := some "museum",
              website := none, description := none },
    lat := none, lon := none }

/-- An environment whose weather call fails while extraction, geocoding,
places succeed and the composer falls back. -/
def envWeatherDown : Env :=
  { extractResp := Except.ok "Paris",
    geoResp := Except.ok [{ lat := 48, lon := 2, display_name := "Paris, France" }],
    weatherResp := Except.error "weather down",
    placesResp := Except.ok { elements := [louvreElement] },
    composeResp := Except.error "llm down" }

/-- C8 witness: with weather requested and failing, the request still
succeeds, the weather field is the marker, the places result is delivered,
and the fallback text has no weather line. -/
theorem process_request_weather_fail_independent_witness :
    ∃ r : SuccessResult,
      process_request "weather and places to visit" envWeatherDown =
        (QueryResult.success r,
         { geocodingCalled := true, weatherCalled := true,
           placesCalled := (analyze_query "weather and places to visit"
             envWeatherDown.extractResp).needs_places }) ∧
      r.weather = some (WeatherResult.err "Unable to fetch weather data" "weather down") ∧
      r.places = (if (analyze_query "weather and places to visit"
                      envWeatherDown.extractResp).needs_places
                  then some (get_tourist_places envWeatherDown.placesResp) else none) ∧
      (∀ ce, envWeatherDown.composeResp = Except.error ce →
        r.response = "Here's what I found: " ++
          ("Location: " ++
            ({ lat := 48, lon := 2, display_name := "Paris, France" } : GeoCoords).display_name ++
            (match (if (analyze_query "weather and places to visit"
                        envWeatherDown.extractResp).needs_places
                    then some (get_tourist_places envWeatherDown.placesResp) else none) with
             | some places =>
               if (places.filterMap poiLine).isEmpty then ""
               else "\n" ++ ("Tourist attractions: " ++
                 String.intercalate ", " (places.filterMap poiLine))
             | none => ""))) :=
  process_request_weather_fail_independent "weather and places to visit" envWeatherDown
    (by decide) (by decide) { lat := 48, lon := 2, display_name := "Paris, France" } rfl
    (by decide) "weather down" rfl

end Tourism
